import Mathlib

/-!
Verification development for the AWS IoT fleet-provisioning client
(`main.go`).  The program connects to an MQTT broker with claim
credentials, runs two correlated publish/subscribe exchanges
(certificate issuance, then thing registration), persists the issued
certificate and private key, and reports the registered thing.

The shallow embedding below models:
  * JSON values (`Json`) and the relevant parts of Go
    `encoding/json.Unmarshal` into the two response structs;
  * the MQTT deliveries a run receives, as a list of timed messages in
    the order the transport delivery thread hands them to the
    subscription callbacks (`Delivery`);
  * the channel-select resolution of each exchange
    (`resolveExchange`): the foreground goroutine blocks on a select
    over the capacity-one response channel, the capacity-one error
    channel and a 10-second timer, so the first delivery on the accept
    or reject topic that arrives within the budget determines the
    outcome, and deliveries after the budget are never consumed;
  * the whole of `main` as a function `runMain` from an environment
    (connect/publish/write success flags plus the delivery lists) to
    the list of externally visible events (subscribes, publishes, file
    writes) and the terminal result.
-/

/-- JSON value, the wire form of every MQTT payload in the program.
An object keeps its fields as an ordered association list so that
field-order (in)dependence can be stated. -/
inductive Json where
  | null : Json
  | bool (b : Bool) : Json
  | num (n : Int) : Json
  | str (s : String) : Json
  | arr (elems : List Json) : Json
  | obj (fields : List (String × Json)) : Json

/-- Test whether a JSON value is a string literal. -/
def Json.isStr : Json → Bool
  | .str _ => true
  | _ => false

/-- Value of a JSON string literal (default for other shapes). -/
def Json.getStr : Json → String
  | .str s => s
  | _ => ""

/-- Characters of a string with upper-case letters lowered. -/
def lowerChars (s : String) : List Char := s.data.map Char.toLower

/-- Lowercased key of an object entry.  Go `encoding/json` matches a
JSON object key to a struct-field tag preferring an exact match and
falling back to a case-insensitive one; for the structs of this
program the tags are pairwise distinct even after lowercasing, so the
match relation is exactly equality of lowercased keys. -/
def lowerKey (e : String × Json) : List Char := lowerChars e.1

/-- Object entries whose key matches the struct-field tag `tag`
(case-insensitively), in object order.  Go assigns them to the field
in order, so on duplicates the last value wins and every matching
value must have the right type. -/
def matchingEntries (tag : String) (l : List (String × Json)) : List (String × Json) :=
  l.filter (fun e => lowerChars e.1 == lowerChars tag)

/-- Decode a JSON value into a Go `string` field. -/
def strOfJson (tag : String) : Json → Except String String
  | .str s => .ok s
  | _ => .error ("cannot unmarshal JSON value into field " ++ tag ++ " of type string")

/-- Decode a JSON value into a Go `map[string]string` field: `null`
gives the nil map, an object whose values are all strings gives the
map, anything else is a type error. -/
def strMapOfJson (tag : String) : Json → Except String (List (String × String))
  | .null => .ok []
  | .obj fs =>
      if fs.all (fun e => e.2.isStr) then
        .ok (fs.map (fun e => (e.1, e.2.getStr)))
      else
        .error ("cannot unmarshal JSON value into field " ++ tag ++ " of type map of string to string")
  | _ => .error ("cannot unmarshal JSON value into field " ++ tag ++ " of type map of string to string")

/-- Decode a JSON value into a Go `map[string]interface` field: `null`
gives the nil map, any object succeeds, anything else is a type
error. -/
def anyMapOfJson (tag : String) : Json → Except String (List (String × Json))
  | .null => .ok []
  | .obj fs => .ok fs
  | _ => .error ("cannot unmarshal JSON value into field " ++ tag ++ " of type map of string to any")

/-- Fold the matching entries for a `string` struct field: missing
key gives the zero value `""`, each matching value must be a string,
the last one wins (Go semantics for duplicate keys). -/
def decodeStringField (tag : String) (ms : List (String × Json)) : Except String String :=
  ms.foldl (fun acc e => acc.bind fun _ => strOfJson tag e.2) (.ok "")

/-- Fold the matching entries for a `map[string]string` struct field. -/
def decodeStrMapField (tag : String) (ms : List (String × Json)) :
    Except String (List (String × String)) :=
  ms.foldl (fun acc e => acc.bind fun _ => strMapOfJson tag e.2) (.ok [])

/-- Fold the matching entries for a `map[string]interface` struct field. -/
def decodeAnyMapField (tag : String) (ms : List (String × Json)) :
    Except String (List (String × Json)) :=
  ms.foldl (fun acc e => acc.bind fun _ => anyMapOfJson tag e.2) (.ok [])

/-- Lookup-and-decode of a `string` struct field in an object. -/
def fieldString (tag : String) (l : List (String × Json)) : Except String String :=
  decodeStringField tag (matchingEntries tag l)

/-- Lookup-and-decode of a `map[string]string` struct field in an object. -/
def fieldStrMap (tag : String) (l : List (String × Json)) :
    Except String (List (String × String)) :=
  decodeStrMapField tag (matchingEntries tag l)

/-- Lookup-and-decode of a `map[string]interface` struct field in an object. -/
def fieldAnyMap (tag : String) (l : List (String × Json)) :
    Except String (List (String × Json)) :=
  decodeAnyMapField tag (matchingEntries tag l)

/-- Certificate creation response struct (`CreateCertificateResponse`,
main.go lines 41-47), with its five tagged fields. -/
structure CreateCertificateResponse where
  certificateID : String
  certificatePem : String
  privateKey : String
  certificateOwnershipToken : String
  resourceArns : List (String × String)
deriving DecidableEq

/-- Device registration response struct (`RegisterThingResponse`,
main.go lines 35-38). -/
structure RegisterThingResponse where
  deviceConfiguration : List (String × Json)
  thingName : String

/-- Go `json.Unmarshal` of a parsed JSON value into
`CreateCertificateResponse`: the top level must be an object, each
tagged field takes the value of its matching key (zero value when the
key is missing), and a type mismatch is an error. -/
def unmarshalCreateCertificateResponse (j : Json) :
    Except String CreateCertificateResponse :=
  match j with
  | .obj l =>
      (fieldString "certificateId" l).bind fun cid =>
      (fieldString "certificatePem" l).bind fun pem =>
      (fieldString "privateKey" l).bind fun key =>
      (fieldString "certificateOwnershipToken" l).bind fun tok =>
      (fieldStrMap "resourceArns" l).bind fun arns =>
      .ok ⟨cid, pem, key, tok, arns⟩
  | _ => .error "cannot unmarshal JSON value into CreateCertificateResponse: not an object"

/-- Go `json.Unmarshal` of a parsed JSON value into
`RegisterThingResponse`. -/
def unmarshalRegisterThingResponse (j : Json) :
    Except String RegisterThingResponse :=
  match j with
  | .obj l =>
      (fieldAnyMap "deviceConfiguration" l).bind fun cfg =>
      (fieldString "thingName" l).bind fun name =>
      .ok ⟨cfg, name⟩
  | _ => .error "cannot unmarshal JSON value into RegisterThingResponse: not an object"

/- Configuration constants, main.go lines 16-31. -/

/-- Provisioning template name (main.go line 18). -/
def templateName : String := "testing_template"

/-- Device serial number (main.go line 19). -/
def serialNumber : String := "testing_serial"

/-- Claim certificate file read at startup (main.go line 20). -/
def certificateFile : String := "device_cert.pem"

/-- Claim private-key file read at startup (main.go line 21). -/
def privateKeyFile : String := "device_key.pem"

/-- Root CA file read at startup (main.go line 22). -/
def rootCAFile : String := "root_ca.pem"

/-- Publish topic for certificate issuance (main.go line 26). -/
def topicCreateCertificate : String := "$aws/certificates/create/json"

/-- Accept topic for certificate issuance (main.go line 27). -/
def topicCreateAccepted : String := "$aws/certificates/create/json/accepted"

/-- Reject topic for certificate issuance (main.go line 28). -/
def topicCreateRejected : String := "$aws/certificates/create/json/rejected"

/-- Publish topic for identity registration (main.go line 29). -/
def topicRegisterThing : String := "$aws/provisioning-templates/testing_template/provision/json"

/-- Accept topic for identity registration (main.go line 30). -/
def topicRegisterAccepted : String :=
  "$aws/provisioning-templates/testing_template/provision/json/accepted"

/-- Reject topic for identity registration (main.go line 31). -/
def topicRegisterRejected : String :=
  "$aws/provisioning-templates/testing_template/provision/json/rejected"

/-- Wait budget, in seconds, of the certificate-creation select
(`time.After(10 * time.Second)`, main.go line 204). -/
def certExchangeTimeout : Nat := 10

/-- Wait budget, in seconds, of the thing-registration select
(`time.After(10 * time.Second)`, main.go line 198). -/
def registerExchangeTimeout : Nat := 10

/-- Raw bytes of a received MQTT message together with the result of
parsing them as JSON (`parsed` abstracts the byte-level
`encoding/json` parser; an `error` value carries the parse-error
detail). -/
structure Payload where
  raw : String
  parsed : Except String Json

/-- One message handed to a subscription callback by the transport
delivery thread: the topic it arrived on, its payload, and its arrival
time in seconds after the corresponding publish. -/
structure Delivery where
  topic : String
  payload : Payload
  time : Nat

/-- Outcome of one correlated exchange: the select either receives a
decoded response, an error (malformed accept payload or explicit
rejection), or fires the timeout. -/
inductive ExchangeOutcome (α : Type) where
  | success (resp : α) : ExchangeOutcome α
  | failure (reason : String) : ExchangeOutcome α
  | timedOut : ExchangeOutcome α
deriving DecidableEq

/-- Whether a delivery can resolve the exchange: it arrived on the
accept or the reject topic before the timer fired. -/
def relevantDelivery (acceptTopic rejectTopic : String) (budget : Nat)
    (d : Delivery) : Bool :=
  d.time < budget && (d.topic == acceptTopic || d.topic == rejectTopic)

/-- Resolution of one correlated exchange (the select blocks at
main.go lines 138 and 192 over the two capacity-one channels filled by
the subscription callbacks at lines 109-120 and 159-170, plus the
timer).  The first delivery on the accept or reject topic within the
budget determines the single outcome: an accept payload is parsed and
unmarshalled (`.success` on success, `.failure` carrying the callback
error message on failure), a reject payload yields `.failure` carrying
the raw body; if no such delivery exists the exchange times out.
Later deliveries sit unread in the buffered channels and never
re-trigger resolution. -/
def resolveExchange {α : Type} (acceptTopic rejectTopic : String) (budget : Nat)
    (unmarshal : Json → Except String α)
    (unmarshalErrLabel rejectLabel : String)
    (ds : List Delivery) : ExchangeOutcome α :=
  match ds.find? (relevantDelivery acceptTopic rejectTopic budget) with
  | none => .timedOut
  | some d =>
      if d.topic == acceptTopic then
        match d.payload.parsed.bind unmarshal with
        | .ok resp => .success resp
        | .error e => .failure (unmarshalErrLabel ++ e)
      else
        .failure (rejectLabel ++ d.payload.raw)

/-- Step A exchange: certificate issuance (callbacks at main.go lines
109-120, select at lines 138-206). -/
def certExchange (ds : List Delivery) : ExchangeOutcome CreateCertificateResponse :=
  resolveExchange topicCreateAccepted topicCreateRejected certExchangeTimeout
    unmarshalCreateCertificateResponse
    "failed to unmarshal certificate response: "
    "certificate creation rejected: " ds

/-- Step B exchange: thing registration (callbacks at main.go lines
159-170, select at lines 192-200). -/
def registerExchange (ds : List Delivery) : ExchangeOutcome RegisterThingResponse :=
  resolveExchange topicRegisterAccepted topicRegisterRejected registerExchangeTimeout
    unmarshalRegisterThingResponse
    "failed to unmarshal register thing response: "
    "thing registration rejected: " ds

/-- Externally visible action of a run: a topic subscription, a
publish of a JSON payload to a topic, or a file write with contents
and permission bits. -/
inductive Event where
  | subscribe (topic : String) : Event
  | publish (topic : String) (payload : Json) : Event
  | fileWrite (name : String) (contents : String) (perm : Nat) : Event

/-- Environment a run executes in: whether connecting, the two
publishes and the two file writes succeed, and the deliveries the
transport hands to the callbacks of each step, in delivery-thread
order. -/
structure Env where
  connectOk : Bool
  publishCertOk : Bool
  writeCertOk : Bool
  writeKeyOk : Bool
  publishRegisterOk : Bool
  certDeliveries : List Delivery
  registerDeliveries : List Delivery

/-- Terminal result of a run: provisioning completed with the reported
thing name and device configuration, or `log.Fatal` with a message. -/
inductive RunResult where
  | completed (thingName : String) (deviceConfiguration : List (String × Json)) : RunResult
  | fatal (msg : String) : RunResult

/-- Payload published to request certificate creation (main.go lines
124-127): a single-field object with an empty signing request. -/
def createCertificatePayload : Json :=
  .obj [("certificateSigningRequest", .str "")]

/-- Payload published to register the thing (main.go lines 174-181):
the ownership token from Step A plus the template parameters map
holding the device serial number.  `json.Marshal` of a Go map emits
the keys in sorted order, which for these maps is the order shown. -/
def registerThingPayload (tok : String) : Json :=
  .obj [("certificateOwnershipToken", .str tok),
        ("parameters", .obj [("SerialNumber", .str serialNumber)])]

/-- Events of Step A up to and including the publish of the creation
request (subscribes at main.go lines 109 and 118, publish at line
132). -/
def stepAEvents : List Event :=
  [.subscribe topicCreateAccepted,
   .subscribe topicCreateRejected,
   .publish topicCreateCertificate createCertificatePayload]

/-- Events through the write of the issued certificate
(`os.WriteFile("permanent_cert.pem", ..., 0644)`, main.go line 144). -/
def eventsThroughCertWrite (resp : CreateCertificateResponse) : List Event :=
  stepAEvents ++ [.fileWrite "permanent_cert.pem" resp.certificatePem 0o644]

/-- Events through the write of the issued private key
(`os.WriteFile("permanent_key.pem", ..., 0600)`, main.go line 149). -/
def eventsThroughKeyWrite (resp : CreateCertificateResponse) : List Event :=
  eventsThroughCertWrite resp ++ [.fileWrite "permanent_key.pem" resp.privateKey 0o600]

/-- Events of Step B up to and including the publish of the
registration request (subscribes at main.go lines 159 and 168, publish
at line 186). -/
def stepBEvents (tok : String) : List Event :=
  [.subscribe topicRegisterAccepted,
   .subscribe topicRegisterRejected,
   .publish topicRegisterThing (registerThingPayload tok)]

/-- Full event list of a run that reaches the Step B select. -/
def fullEvents (resp : CreateCertificateResponse) : List Event :=
  eventsThroughKeyWrite resp ++ stepBEvents resp.certificateOwnershipToken

/-- Step B select block (main.go lines 192-200) as a function of the
issuance response carried so far and the registration exchange
outcome. -/
def stepBOutcome (resp : CreateCertificateResponse)
    (o : ExchangeOutcome RegisterThingResponse) : List Event × RunResult :=
  match o with
  | .success rr => (fullEvents resp, .completed rr.thingName rr.deviceConfiguration)
  | .failure r => (fullEvents resp, .fatal ("Thing registration failed: " ++ r))
  | .timedOut => (fullEvents resp, .fatal "Timeout waiting for thing registration response")

/-- The whole of `main` (main.go lines 93-209) as a function from the
environment to the visible events and the terminal result.  Failed
publishes and file writes still emit their event (the operation was
attempted) before aborting.  `json.Marshal` of the two request maps
cannot fail, so the marshal-error branches at lines 128-130 and
182-184 are unreachable and not modelled. -/
def runMain (env : Env) : List Event × RunResult :=
  if env.connectOk then
    if env.publishCertOk then
      match certExchange env.certDeliveries with
      | .success resp =>
          if env.writeCertOk then
            if env.writeKeyOk then
              if env.publishRegisterOk then
                stepBOutcome resp (registerExchange env.registerDeliveries)
              else
                (fullEvents resp, .fatal "Failed to publish register thing request")
            else
              (eventsThroughKeyWrite resp, .fatal "Failed to write permanent private key to file")
          else
            (eventsThroughCertWrite resp, .fatal "Failed to write permanent certificate to file")
      | .failure r => (stepAEvents, .fatal ("Certificate creation failed: " ++ r))
      | .timedOut => (stepAEvents, .fatal "Timeout waiting for certificate creation response")
    else
      (stepAEvents, .fatal "Failed to publish create certificate request")
  else
    ([], .fatal "Failed to create MQTT client")

/-- Whether an event touches one of the identity-registration topics
(a subscribe or publish on the register publish/accept/reject
topics). -/
def touchesRegistrationTopic : Event → Bool
  | .subscribe t =>
      t == topicRegisterThing || t == topicRegisterAccepted || t == topicRegisterRejected
  | .publish t _ =>
      t == topicRegisterThing || t == topicRegisterAccepted || t == topicRegisterRejected
  | .fileWrite _ _ _ => false

/-- Whether an event is a file write. -/
def isFileWriteEvent : Event → Bool
  | .fileWrite _ _ _ => true
  | _ => false

/-- Whether an event is a publish to topic `t`. -/
def isPublishTo (t : String) : Event → Bool
  | .publish t' _ => t' == t
  | _ => false

/-- Whether an event is a subscribe to topic `t`. -/
def isSubscribeTo (t : String) : Event → Bool
  | .subscribe t' => t' == t
  | _ => false

/-- Checks that whenever the event list publishes to `pubTopic`, the
subscriptions to `acceptTopic` and `rejectTopic` both occur strictly
before the first such publish. -/
def subscribedBeforeFirstPublish (acceptTopic rejectTopic pubTopic : String)
    (evs : List Event) : Bool :=
  !(evs.any (isPublishTo pubTopic)) ||
    (let pre := evs.takeWhile (fun e => !(isPublishTo pubTopic e))
     pre.any (isSubscribeTo acceptTopic) && pre.any (isSubscribeTo rejectTopic))

/-- Every-file-write check: each file write of the event list targets
one of the two permanent-credential output names. -/
def writesOnlyPermanentOutputs (evs : List Event) : Bool :=
  evs.all fun e =>
    match e with
    | .fileWrite n _ _ => n == "permanent_cert.pem" || n == "permanent_key.pem"
    | _ => true

/-- Unix permission check: the read bit for world (others) is set. -/
def worldReadable (perm : Nat) : Bool := perm % 8 / 4 = 1

/-- Unix permission check: owner has read/write and group and others
have no access at all. -/
def ownerOnlyReadWrite (perm : Nat) : Bool := perm / 64 = 6 && perm % 64 = 0

/-- Issuance-response object with the five tagged fields in struct
order; a valid `CertificateIssuance` response is any JSON object whose
fields are a permutation of these. -/
def canonicalIssuance (cid pem key tok : String) (arns : List (String × String)) :
    List (String × Json) :=
  [("certificateId", .str cid),
   ("certificatePem", .str pem),
   ("privateKey", .str key),
   ("certificateOwnershipToken", .str tok),
   ("resourceArns", .obj (arns.map fun e => (e.1, .str e.2)))]

/-- Sample issuance response (the values of the end-to-end scenario in
the spec). -/
def sampleIssuanceObj : List (String × Json) :=
  canonicalIssuance "abc" "CERTDATA" "KEYDATA" "tok123" []

/-- Sample well-formed accept delivery for Step A. -/
def acceptDeliverySample : Delivery :=
  { topic := topicCreateAccepted
    payload := { raw := "json body", parsed := .ok (.obj sampleIssuanceObj) }
    time := 1 }

/-- Sample reject delivery for Step A with body `quota exceeded`. -/
def rejectDeliveryQuota : Delivery :=
  { topic := topicCreateRejected
    payload := { raw := "quota exceeded"
                 parsed := .error "invalid character q looking for beginning of value" }
    time := 1 }

/-- Sample accept delivery whose payload is not valid JSON. -/
def malformedAcceptDelivery : Delivery :=
  { topic := topicCreateAccepted
    payload := { raw := "not-json"
                 parsed := .error "invalid character n looking for beginning of value" }
    time := 0 }

/-- Sample accept delivery arriving 12 seconds after publish, past the
10-second budget. -/
def lateAcceptDelivery : Delivery :=
  { topic := topicCreateAccepted
    payload := { raw := "json body", parsed := .ok (.obj sampleIssuanceObj) }
    time := 12 }

/-- Environment whose Step A exchange is rejected. -/
def envRejectA : Env :=
  { connectOk := true, publishCertOk := true, writeCertOk := true, writeKeyOk := true
    publishRegisterOk := true, certDeliveries := [rejectDeliveryQuota], registerDeliveries := [] }

/-- Environment whose Step A exchange succeeds with the sample
issuance response and whose writes succeed. -/
def envHappyA : Env :=
  { connectOk := true, publishCertOk := true, writeCertOk := true, writeKeyOk := true
    publishRegisterOk := true, certDeliveries := [acceptDeliverySample], registerDeliveries := [] }

/-- Helper: a list whose image under `f` is duplicate-free and
constantly `c` has at most one element. -/
theorem length_le_one_of_nodup_map_const {α β : Type} (f : α → β) (c : β)
    (m : List α) (hnd : (m.map f).Nodup) (hall : ∀ x ∈ m, f x = c) :
    m.length ≤ 1 := by
  cases m with
  | nil => simp
  | cons a t =>
    cases t with
    | nil => simp
    | cons b t' =>
      exfalso
      have ha : f a = c := hall a (by simp)
      have hb : f b = c := hall b (by simp)
      have hnd' := hnd
      rw [List.map_cons, List.map_cons, List.nodup_cons] at hnd'
      exact hnd'.1 (by simp [ha, hb])

/-- Helper: permutations of lists of length at most one are equal. -/
theorem eq_of_perm_length_le_one {α : Type} {l l' : List α}
    (h : l.Perm l') (hl : l.length ≤ 1) : l = l' := by
  cases l with
  | nil => exact (h.symm.eq_nil).symm
  | cons a t =>
    cases t with
    | nil => exact (List.perm_singleton.mp h.symm).symm
    | cons b t' => simp at hl

/-- Helper: when the lowered keys of an object are duplicate-free, the
entries matching a field tag are unchanged by permuting the object
fields (there is at most one such entry). -/
theorem matchingEntries_perm (tag : String) {l l' : List (String × Json)}
    (h : l.Perm l') (hnd : (l.map lowerKey).Nodup) :
    matchingEntries tag l = matchingEntries tag l' := by
  have hperm : (matchingEntries tag l).Perm (matchingEntries tag l') :=
    List.Perm.filter (fun (e : String × Json) => lowerChars e.1 == lowerChars tag) h
  have hsub : (matchingEntries tag l).Sublist l := List.filter_sublist l
  have hnd' : ((matchingEntries tag l).map lowerKey).Nodup :=
    List.Nodup.sublist (List.Sublist.map lowerKey hsub) hnd
  have hall : ∀ x ∈ matchingEntries tag l, lowerKey x = lowerChars tag := by
    intro x hx
    have hx' : x ∈ l.filter (fun e => lowerChars e.1 == lowerChars tag) := hx
    have hpx := List.of_mem_filter hx'
    exact eq_of_beq hpx
  exact eq_of_perm_length_le_one hperm
    (length_le_one_of_nodup_map_const lowerKey (lowerChars tag) _ hnd' hall)

/-- Helper: `CreateCertificateResponse` unmarshalling is invariant
under permutation of the JSON object fields when the lowered keys are
duplicate-free. -/
theorem unmarshalCreateCertificateResponse_perm {l l' : List (String × Json)}
    (h : l.Perm l') (hnd : (l.map lowerKey).Nodup) :
    unmarshalCreateCertificateResponse (.obj l) =
      unmarshalCreateCertificateResponse (.obj l') := by
  simp only [unmarshalCreateCertificateResponse, fieldString, fieldStrMap,
    matchingEntries_perm "certificateId" h hnd,
    matchingEntries_perm "certificatePem" h hnd,
    matchingEntries_perm "privateKey" h hnd,
    matchingEntries_perm "certificateOwnershipToken" h hnd,
    matchingEntries_perm "resourceArns" h hnd]

/-- Helper: decoding a `map[string]string` field from the JSON image
of a string map gives back exactly that map. -/
theorem strMapOfJson_map_str (tag : String) (arns : List (String × String)) :
    strMapOfJson tag (.obj (arns.map fun e => (e.1, Json.str e.2))) = .ok arns := by
  have hall : ((arns.map fun e => (e.1, Json.str e.2)).all (fun e => e.2.isStr)) = true := by
    induction arns with
    | nil => rfl
    | cons a t ih => simpa [Json.isStr] using ih
  have hmap : ((arns.map fun e => (e.1, Json.str e.2)).map (fun e => (e.1, e.2.getStr))) = arns := by
    clear hall
    induction arns with
    | nil => rfl
    | cons a t ih => simpa [Json.getStr] using ih
  simp [strMapOfJson, hall, hmap]

/-- Helper: unmarshalling the canonical issuance object yields exactly
the field values. -/
theorem unmarshalCreateCertificateResponse_canonical (cid pem key tok : String)
    (arns : List (String × String)) :
    unmarshalCreateCertificateResponse (.obj (canonicalIssuance cid pem key tok arns)) =
      .ok ⟨cid, pem, key, tok, arns⟩ := by
  show (strMapOfJson "resourceArns" (.obj (arns.map fun e => (e.1, Json.str e.2)))).bind
      (fun a => Except.ok (⟨cid, pem, key, tok, a⟩ : CreateCertificateResponse)) =
    Except.ok ⟨cid, pem, key, tok, arns⟩
  rw [strMapOfJson_map_str]
  rfl

/-- Helper: whatever the registration exchange outcome, the events of
a run that reaches the Step B select are exactly `fullEvents`. -/
theorem stepBOutcome_events (resp : CreateCertificateResponse)
    (o : ExchangeOutcome RegisterThingResponse) :
    (stepBOutcome resp o).1 = fullEvents resp := by
  cases o <;> rfl

/-- C9: the topic strings used by the program are exactly those of the
transport topic contract: certificate issuance publishes to
`$aws/certificates/create/json` with accept/reject topics obtained by
appending `/accepted` and `/rejected`, and identity registration
publishes to `$aws/provisioning-templates/T/provision/json` for the
configured template name `T`, with accept/reject topics formed the
same way. -/
theorem c9_topic_strings :
    topicCreateCertificate = "$aws/certificates/create/json" ∧
    topicCreateAccepted = topicCreateCertificate ++ "/accepted" ∧
    topicCreateRejected = topicCreateCertificate ++ "/rejected" ∧
    topicRegisterThing = "$aws/provisioning-templates/" ++ templateName ++ "/provision/json" ∧
    topicRegisterAccepted = topicRegisterThing ++ "/accepted" ∧
    topicRegisterRejected = topicRegisterThing ++ "/rejected" :=
  ⟨rfl, rfl, rfl, rfl, rfl, rfl⟩

/-- C1: if Step A resolves with `Failure` or `TimedOut`, the run
aborts with that reason and performs zero publish or subscribe
operations on the registration topics (Step B is invoked only after a
Step A `Success`). -/
theorem c1_step_b_only_after_step_a_success (env : Env)
    (hconn : env.connectOk = true) (hpub : env.publishCertOk = true) :
    (∀ r, certExchange env.certDeliveries = .failure r →
        (runMain env).2 = .fatal ("Certificate creation failed: " ++ r) ∧
        ((runMain env).1.all fun e => !(touchesRegistrationTopic e)) = true) ∧
    (certExchange env.certDeliveries = .timedOut →
        (runMain env).2 = .fatal "Timeout waiting for certificate creation response" ∧
        ((runMain env).1.all fun e => !(touchesRegistrationTopic e)) = true) := by
  obtain ⟨c, p, w1, w2, pr, cds, rds⟩ := env
  subst hconn
  subst hpub
  constructor
  · intro r hr
    unfold runMain
    rw [hr]
    exact ⟨rfl, rfl⟩
  · intro ht
    unfold runMain
    rw [ht]
    exact ⟨rfl, rfl⟩

/-- Witness for C1 at a concrete rejected run. -/
theorem c1_witness :
    (runMain envRejectA).2 =
        .fatal "Certificate creation failed: certificate creation rejected: quota exceeded" ∧
    ((runMain envRejectA).1.all fun e => !(touchesRegistrationTopic e)) = true :=
  (c1_step_b_only_after_step_a_success envRejectA rfl rfl).1
    "certificate creation rejected: quota exceeded" rfl

/-- C5: exactly one `ExchangeOutcome` is produced per exchange
invocation (resolution is a total function of the delivery list), and
given both an accept and a reject delivery for the same exchange, the
first arrival in delivery-thread order determines the single outcome:
any deliveries after the first relevant one are a no-op that does not
change the result. -/
theorem c5_resolve_exactly_once (d : Delivery) (rest : List Delivery) :
    (relevantDelivery topicCreateAccepted topicCreateRejected certExchangeTimeout d = true →
        certExchange (d :: rest) = certExchange [d]) ∧
    (relevantDelivery topicRegisterAccepted topicRegisterRejected registerExchangeTimeout d = true →
        registerExchange (d :: rest) = registerExchange [d]) := by
  constructor <;> intro h <;>
    simp only [certExchange, registerExchange, resolveExchange, List.find?_cons_of_pos _ h]

/-- Witness for C5: an accept delivery followed by a reject delivery
resolves exactly as the accept alone. -/
theorem c5_witness :
    certExchange [acceptDeliverySample, rejectDeliveryQuota] =
      certExchange [acceptDeliverySample] :=
  (c5_resolve_exactly_once acceptDeliverySample [rejectDeliveryQuota]).1 rfl

/-- C6: if neither an accept nor a reject delivery arrives within the
wait budget, the exchange yields `TimedOut`, even if deliveries arrive
after the budget expires; both Step A and Step B use the same fixed
10-second budget. -/
theorem c6_timeout_determinism (dsA dsB : List Delivery)
    (hA : ∀ d ∈ dsA, (d.topic = topicCreateAccepted ∨ d.topic = topicCreateRejected) →
        certExchangeTimeout ≤ d.time)
    (hB : ∀ d ∈ dsB, (d.topic = topicRegisterAccepted ∨ d.topic = topicRegisterRejected) →
        registerExchangeTimeout ≤ d.time) :
    certExchange dsA = .timedOut ∧ registerExchange dsB = .timedOut ∧
      certExchangeTimeout = registerExchangeTimeout ∧ certExchangeTimeout = 10 := by
  have hnone : ∀ (aT rT : String) (b : Nat) (ds : List Delivery),
      (∀ d ∈ ds, (d.topic = aT ∨ d.topic = rT) → b ≤ d.time) →
      ds.find? (relevantDelivery aT rT b) = none := by
    intro aT rT b ds hds
    rw [List.find?_eq_none]
    intro d hd
    unfold relevantDelivery
    by_cases hm : d.topic = aT ∨ d.topic = rT
    · have hb := hds d hd hm
      simp [Nat.not_lt.mpr hb]
    · push_neg at hm
      simp [hm.1, hm.2]
  refine ⟨?_, ?_, rfl, rfl⟩
  · unfold certExchange resolveExchange
    rw [hnone _ _ _ _ hA]
  · unfold registerExchange resolveExchange
    rw [hnone _ _ _ _ hB]

/-- Witness for C6: a well-formed accept delivery arriving 12 seconds
after publish does not prevent the timeout outcome. -/
theorem c6_witness :
    certExchange [lateAcceptDelivery] = .timedOut ∧ registerExchange [] = .timedOut ∧
      certExchangeTimeout = registerExchangeTimeout ∧ certExchangeTimeout = 10 :=
  c6_timeout_determinism [lateAcceptDelivery] [] (by decide) (by decide)

/-- C7: in every run, the subscriptions to the accept and reject
topics of each exchange are established before the corresponding
request is published: no publish of a request ever precedes its
subscriptions. -/
theorem c7_subscriptions_before_publish (env : Env) :
    subscribedBeforeFirstPublish topicCreateAccepted topicCreateRejected topicCreateCertificate
        (runMain env).1 = true ∧
    subscribedBeforeFirstPublish topicRegisterAccepted topicRegisterRejected topicRegisterThing
        (runMain env).1 = true := by
  obtain ⟨c, p, w1, w2, pr, cds, rds⟩ := env
  constructor <;>
  · unfold runMain
    repeat' split
    all_goals first
      | rfl
      | (rw [stepBOutcome_events]; rfl)

/-- C8: a delivery on the reject topic during Step A terminates the
run with an error containing the raw reject payload body verbatim, and
the run performs no file writes at all. -/
theorem c8_reject_aborts_without_writes (env : Env) (d : Delivery)
    (hconn : env.connectOk = true) (hpub : env.publishCertOk = true)
    (hfind : env.certDeliveries.find?
        (relevantDelivery topicCreateAccepted topicCreateRejected certExchangeTimeout) = some d)
    (htop : d.topic = topicCreateRejected) :
    (runMain env).2 =
        .fatal ("Certificate creation failed: " ++
          ("certificate creation rejected: " ++ d.payload.raw)) ∧
    ((runMain env).1.all fun e => !(isFileWriteEvent e)) = true := by
  obtain ⟨c, p, w1, w2, pr, cds, rds⟩ := env
  subst hconn
  subst hpub
  have hex : certExchange cds =
      .failure ("certificate creation rejected: " ++ d.payload.raw) := by
    unfold certExchange resolveExchange
    simp only [hfind, htop]
    rfl
  unfold runMain
  rw [hex]
  exact ⟨rfl, rfl⟩

/-- Witness for C8: the reject body `quota exceeded` appears verbatim
in the terminal error and no file write happens. -/
theorem c8_witness :
    (runMain envRejectA).2 =
        .fatal ("Certificate creation failed: " ++
          ("certificate creation rejected: " ++ "quota exceeded")) ∧
    ((runMain envRejectA).1.all fun e => !(isFileWriteEvent e)) = true :=
  c8_reject_aborts_without_writes envRejectA rejectDeliveryQuota rfl rfl rfl rfl

/-- C10: a run never writes to the claim-credential files read at
startup; every file write targets one of the two distinct fixed output
names `permanent_cert.pem` and `permanent_key.pem`, which differ from
the configured claim certificate, claim private-key and root-CA
files. -/
theorem c10_claim_files_never_written (env : Env) :
    writesOnlyPermanentOutputs (runMain env).1 = true ∧
    ("permanent_cert.pem" ≠ "permanent_key.pem") ∧
    ("permanent_cert.pem" ≠ certificateFile) ∧ ("permanent_cert.pem" ≠ privateKeyFile) ∧
    ("permanent_cert.pem" ≠ rootCAFile) ∧ ("permanent_key.pem" ≠ certificateFile) ∧
    ("permanent_key.pem" ≠ privateKeyFile) ∧ ("permanent_key.pem" ≠ rootCAFile) := by
  refine ⟨?_, by decide, by decide, by decide, by decide, by decide, by decide, by decide⟩
  obtain ⟨c, p, w1, w2, pr, cds, rds⟩ := env
  unfold runMain
  repeat' split
  all_goals first
    | rfl
    | (rw [stepBOutcome_events]; rfl)

/-- C2: for every valid issuance response accepted in Step A
(any field order), the run persists exactly the bytes of
`certificatePem` to `permanent_cert.pem` with world-readable
permissions 0644 and exactly the bytes of `privateKey` to
`permanent_key.pem` with owner-only permissions 0600; if either write
fails the run aborts before Step B starts. -/
theorem c2_persist_issued_credentials (env : Env) (d : Delivery)
    (l : List (String × Json)) (cid pem key tok : String) (arns : List (String × String))
    (hconn : env.connectOk = true) (hpub : env.publishCertOk = true)
    (hfind : env.certDeliveries.find?
        (relevantDelivery topicCreateAccepted topicCreateRejected certExchangeTimeout) = some d)
    (htop : d.topic = topicCreateAccepted)
    (hpay : d.payload.parsed = .ok (.obj l))
    (hperm : l.Perm (canonicalIssuance cid pem key tok arns)) :
    certExchange env.certDeliveries =
      .success { certificateID := cid, certificatePem := pem, privateKey := key,
                 certificateOwnershipToken := tok, resourceArns := arns } ∧
    (env.writeCertOk = true → env.writeKeyOk = true →
      (runMain env).1.filter isFileWriteEvent =
        [.fileWrite "permanent_cert.pem" pem 0o644,
         .fileWrite "permanent_key.pem" key 0o600]) ∧
    (env.writeCertOk = false →
      (runMain env).2 = .fatal "Failed to write permanent certificate to file" ∧
      ((runMain env).1.all fun e => !(touchesRegistrationTopic e)) = true) ∧
    (env.writeCertOk = true → env.writeKeyOk = false →
      (runMain env).2 = .fatal "Failed to write permanent private key to file" ∧
      ((runMain env).1.all fun e => !(touchesRegistrationTopic e)) = true) ∧
    worldReadable 0o644 = true ∧ ownerOnlyReadWrite 0o600 = true := by
  obtain ⟨c, p, w1, w2, pr, cds, rds⟩ := env
  subst hconn
  subst hpub
  have hcnd0 : (["certificateId", "certificatePem", "privateKey",
      "certificateOwnershipToken", "resourceArns"].map lowerChars).Nodup := by decide
  have hcnd : ((canonicalIssuance cid pem key tok arns).map lowerKey).Nodup := hcnd0
  have hnd : (l.map lowerKey).Nodup := ((hperm.map lowerKey).nodup_iff).mpr hcnd
  have ha : certExchange cds =
      .success { certificateID := cid, certificatePem := pem, privateKey := key,
                 certificateOwnershipToken := tok, resourceArns := arns } := by
    unfold certExchange resolveExchange
    simp only [hfind, htop]
    rw [hpay]
    have hu : (Except.ok (Json.obj l)).bind unmarshalCreateCertificateResponse =
        Except.ok (⟨cid, pem, key, tok, arns⟩ : CreateCertificateResponse) := by
      rw [show (Except.ok (Json.obj l)).bind unmarshalCreateCertificateResponse =
            unmarshalCreateCertificateResponse (Json.obj l) from rfl,
        unmarshalCreateCertificateResponse_perm hperm hnd,
        unmarshalCreateCertificateResponse_canonical]
    rw [hu]
    rfl
  refine ⟨ha, ?_, ?_, ?_, by decide, by decide⟩
  · intro hw1 hw2
    have hw1' : w1 = true := hw1
    have hw2' : w2 = true := hw2
    subst hw1'
    subst hw2'
    unfold runMain
    rw [ha]
    cases pr with
    | false => rfl
    | true =>
        show (stepBOutcome
            { certificateID := cid, certificatePem := pem, privateKey := key,
              certificateOwnershipToken := tok, resourceArns := arns }
            (registerExchange rds)).1.filter isFileWriteEvent =
          [.fileWrite "permanent_cert.pem" pem 0o644,
           .fileWrite "permanent_key.pem" key 0o600]
        rw [stepBOutcome_events]
        rfl
  · intro hw1
    have hw1' : w1 = false := hw1
    subst hw1'
    unfold runMain
    rw [ha]
    exact ⟨rfl, rfl⟩
  · intro hw1 hw2
    have hw1' : w1 = true := hw1
    have hw2' : w2 = false := hw2
    subst hw1'
    subst hw2'
    unfold runMain
    rw [ha]
    exact ⟨rfl, rfl⟩

/-- Witness for C2 at the concrete end-to-end scenario values. -/
theorem c2_witness :
    (runMain envHappyA).1.filter isFileWriteEvent =
      [.fileWrite "permanent_cert.pem" "CERTDATA" 0o644,
       .fileWrite "permanent_key.pem" "KEYDATA" 0o600] :=
  (c2_persist_issued_credentials envHappyA acceptDeliverySample
      sampleIssuanceObj "abc" "CERTDATA" "KEYDATA" "tok123" []
      rfl rfl rfl rfl rfl (List.Perm.refl _)).2.1 rfl rfl

/-- C3: for every Step A success, the registration request published
in Step B is a JSON object whose `certificateOwnershipToken` field is
exactly the token received in the issuance response and whose
`parameters` field is a string-to-string map holding the configured
device serial number. -/
theorem c3_registration_request_payload (env : Env) (resp : CreateCertificateResponse)
    (hconn : env.connectOk = true) (hpub : env.publishCertOk = true)
    (hw1 : env.writeCertOk = true) (hw2 : env.writeKeyOk = true)
    (hA : certExchange env.certDeliveries = .success resp) :
    (Event.publish topicRegisterThing (registerThingPayload resp.certificateOwnershipToken))
        ∈ (runMain env).1 ∧
    registerThingPayload resp.certificateOwnershipToken =
      .obj [("certificateOwnershipToken", .str resp.certificateOwnershipToken),
            ("parameters", .obj [("SerialNumber", .str serialNumber)])] := by
  refine ⟨?_, rfl⟩
  obtain ⟨c, p, w1, w2, pr, cds, rds⟩ := env
  subst hconn
  subst hpub
  have hw1' : w1 = true := hw1
  have hw2' : w2 = true := hw2
  subst hw1'
  subst hw2'
  unfold runMain
  rw [hA]
  cases pr with
  | false =>
      show Event.publish topicRegisterThing (registerThingPayload resp.certificateOwnershipToken)
          ∈ fullEvents resp
      simp [fullEvents, eventsThroughKeyWrite, eventsThroughCertWrite, stepAEvents, stepBEvents]
  | true =>
      show Event.publish topicRegisterThing (registerThingPayload resp.certificateOwnershipToken)
          ∈ (stepBOutcome resp (registerExchange rds)).1
      rw [stepBOutcome_events]
      simp [fullEvents, eventsThroughKeyWrite, eventsThroughCertWrite, stepAEvents, stepBEvents]

/-- Witness for C3 at the concrete end-to-end scenario values. -/
theorem c3_witness :
    (Event.publish topicRegisterThing (registerThingPayload "tok123")) ∈ (runMain envHappyA).1 :=
  (c3_registration_request_payload envHappyA
      { certificateID := "abc", certificatePem := "CERTDATA", privateKey := "KEYDATA",
        certificateOwnershipToken := "tok123", resourceArns := [] }
      rfl rfl rfl rfl rfl).1

/-- C4 counterexample: a malformed accept payload resolves the
exchange with the failure message `failed to unmarshal certificate
response: <detail>`, not with the message `malformed accepted
response: <detail>` stated by the claim. -/
theorem c4_counterexample :
    certExchange [malformedAcceptDelivery] =
      .failure ("failed to unmarshal certificate response: " ++
        "invalid character n looking for beginning of value") ∧
    certExchange [malformedAcceptDelivery] ≠
      .failure ("malformed accepted response: " ++
        "invalid character n looking for beginning of value") := by
  constructor
  · rfl
  · decide

/-- C4 (amended): every message delivered first on an accept topic
whose payload fails to parse or unmarshal resolves the exchange with
`Failure("failed to unmarshal certificate response: <detail>")` in
Step A and `Failure("failed to unmarshal register thing response:
<detail>")` in Step B, each containing the parse-error detail; the
resolution is a total function (no crash) and never a `Success`. -/
theorem c4_malformed_accept_resolves_failure :
    (∀ (ds : List Delivery) (d : Delivery) (e : String),
        ds.find? (relevantDelivery topicCreateAccepted topicCreateRejected certExchangeTimeout)
            = some d →
        d.topic = topicCreateAccepted →
        d.payload.parsed.bind unmarshalCreateCertificateResponse = .error e →
        certExchange ds = .failure ("failed to unmarshal certificate response: " ++ e) ∧
        ∀ resp, certExchange ds ≠ .success resp) ∧
    (∀ (ds : List Delivery) (d : Delivery) (e : String),
        ds.find? (relevantDelivery topicRegisterAccepted topicRegisterRejected
            registerExchangeTimeout) = some d →
        d.topic = topicRegisterAccepted →
        d.payload.parsed.bind unmarshalRegisterThingResponse = .error e →
        registerExchange ds = .failure ("failed to unmarshal register thing response: " ++ e) ∧
        ∀ resp, registerExchange ds ≠ .success resp) := by
  constructor
  · intro ds d e hfind htop herr
    have hx : certExchange ds =
        .failure ("failed to unmarshal certificate response: " ++ e) := by
      unfold certExchange resolveExchange
      simp only [hfind, htop, herr, beq_self_eq_true, if_true]
    refine ⟨hx, fun resp h => ?_⟩
    rw [hx] at h
    exact ExchangeOutcome.noConfusion h
  · intro ds d e hfind htop herr
    have hx : registerExchange ds =
        .failure ("failed to unmarshal register thing response: " ++ e) := by
      unfold registerExchange resolveExchange
      simp only [hfind, htop, herr, beq_self_eq_true, if_true]
    refine ⟨hx, fun resp h => ?_⟩
    rw [hx] at h
    exact ExchangeOutcome.noConfusion h

/-- Witness for the amended C4 at a concrete malformed payload. -/
theorem c4_witness :
    certExchange [malformedAcceptDelivery] =
      .failure ("failed to unmarshal certificate response: " ++
        "invalid character n looking for beginning of value") :=
  (c4_malformed_accept_resolves_failure.1 [malformedAcceptDelivery] malformedAcceptDelivery
    "invalid character n looking for beginning of value" rfl rfl rfl).1
